import Mathlib

/-!
The entity model of package `imdb` (`imdb/entity.go`)

A shallow embedding of the category enumeration, the four variant records,
the per-category loaders and the two resolvers (`FromAtom`, `fromAtomGuess`).

Conventions of the embedding.

* A Go function that may panic returns `Outcome α`: `.panic msg` is a panic
  carrying `msg`, `.ret a` a normal return.
* A Go pointer is an `Option`: `none` is the nil pointer. A Go `error` is an
  `Option Error`: `none` is the nil error.
* Go's `int`, `int32` are `Int`; the code does no arithmetic on them.
* The query executor is an arbitrary function of the queries issued so far
  (the history), so it may answer the same query differently on a second call.
  Every function that queries threads the history explicitly.
-/

namespace imdb

/-- How a call of a Go function ends: it returns a value or it panics. -/
inductive Outcome (α : Type) where
  | ret (a : α)
  | panic (msg : String)
  deriving DecidableEq, Repr

/-- The call ended in a panic. -/
def Outcome.panics {α : Type} : Outcome α → Bool
  | .ret _ => false
  | .panic _ => true

/-- Feed the value a call returned to the next call; a panic ends the chain. -/
def Outcome.bind {α β : Type} (x : Outcome α) (f : α → Outcome β) : Outcome β :=
  match x with
  | .ret a => f a
  | .panic msg => .panic msg

/-! ## Formatting verbs of package `fmt` used by the file -/

/-- The verb `%d` applied to an integer: its decimal rendering, with a leading
minus sign for a negative number. A `String` method is not consulted for `%d`. -/
def fmtD (n : Int) : String := toString n

/-- The verb `%s` applied to a value with a `String` method: `fmt` calls the
method and, when the method panics, recovers and prints the panic value inside
a `%!s(PANIC=String method: ...)` marker instead of propagating the panic
(releases before Go 1.13 print the marker without the method's name). -/
def fmtStringer (r : Outcome String) : String :=
  match r with
  | .ret s => s
  | .panic msg => "%!s(PANIC=String method: " ++ msg ++ ")"

/-- Go's `len(s) > 0` on a string: the length in bytes is positive. -/
def nonEmpty (s : String) : Bool := decide (0 < s.utf8ByteSize)

/-- Modelled from the spec: the helper `sf` is declared outside `entity.go`;
it is the package's name for `fmt.Sprintf`. Applied to a format with one verb
it returns the text before the verb, the rendered argument and the text after
the verb. -/
def sf (before rendered after : String) : String := before ++ rendered ++ after

/-! ## Identifiers and categories -/

/-- The type `Atom` (`int32` in the source). -/
abbrev Atom := Int

/-- The method `Atom.String`: `sf("%d", a)`. -/
def Atom.String (a : Atom) : String := sf "" (fmtD a) ""

/-- The type `EntityKind` (`int` in the source): any integer is a value of it. -/
abbrev EntityKind := Int

def EntityNone : EntityKind := 0
def EntityMovie : EntityKind := 1
def EntityTvshow : EntityKind := 2
def EntityEpisode : EntityKind := 3
def EntityActor : EntityKind := 4

/-- The map `Entities`, as its list of key/value pairs. -/
def Entities : List (String × EntityKind) :=
  [("movie", EntityMovie),
   ("tvshow", EntityTvshow),
   ("episode", EntityEpisode),
   ("actor", EntityActor)]

/-- The function `entityKindFromString`: a lookup in `Entities` that panics on
a missing key. -/
def entityKindFromString (e : String) : Outcome EntityKind :=
  match Entities.lookup e with
  | none => .panic (sf "BUG: unrecognized entity " e "")
  | some ent => .ret ent

/-- The method `EntityKind.String`: a switch over the four categories, and a
panic after the switch. -/
def EntityKind.String (e : EntityKind) : Outcome String :=
  if e = EntityMovie then .ret "movie"
  else if e = EntityTvshow then .ret "tvshow"
  else if e = EntityEpisode then .ret "episode"
  else if e = EntityActor then .ret "actor"
  else .panic (sf "unrecognized entity " (fmtD e) "")

/-! ## Errors, rows and the query executor -/

/-- A non-nil value of Go's `error`, identified by its message. -/
structure Error where
  msg : String
  deriving DecidableEq, Repr

/-- Modelled from the spec: the helper `ef` is declared outside `entity.go`;
it is the package's name for `fmt.Errorf`, and the spec has both resolvers
hand the error it builds back as a value. Its message is that of `sf`. -/
def ef (before rendered after : String) : Error := ⟨sf before rendered after⟩

/-- The content of a variable whose address is handed to `RowScanner.Scan`:
the fields of the records are of these four types. -/
inductive Dest where
  | atom (a : Atom)
  | str (s : String)
  | int (n : Int)
  | bool (b : Bool)
  deriving DecidableEq, Repr

/-- What a scanner left in an `Atom` variable: a store through a typed pointer
holds a value of that type; without one the variable keeps `old`. -/
def Dest.atomOr (d : Option Dest) (old : Atom) : Atom :=
  match d with
  | some (.atom a) => a
  | _ => old

/-- What a scanner left in a `string` variable. -/
def Dest.strOr (d : Option Dest) (old : String) : String :=
  match d with
  | some (.str s) => s
  | _ => old

/-- What a scanner left in an `int` variable. -/
def Dest.intOr (d : Option Dest) (old : Int) : Int :=
  match d with
  | some (.int n) => n
  | _ => old

/-- What a scanner left in a `bool` variable. -/
def Dest.boolOr (d : Option Dest) (old : Bool) : Bool :=
  match d with
  | some (.bool b) => b
  | _ => old

/-- The interface `csql.RowScanner`: `Scan` is given the destination variables
(here their current contents, in order) and answers with their contents after
the call and an error. -/
structure RowScanner where
  Scan : List Dest → List Dest × Option Error

/-- One call of `QueryRow`: the query text and its positional argument. -/
structure Call where
  query : String
  arg : Atom
  deriving DecidableEq, Repr

/-- The interface `csql.Queryer`, reduced to the method the file calls.
`QueryRow` sees the calls made before it, so the executor may be stateful. -/
structure Queryer where
  QueryRow : List Call → String → Atom → RowScanner

/-! ## The four variant records -/

structure Movie where
  Id : Atom
  Title : String
  Year : Int
  Sequence : String
  Tv : Bool
  Video : Bool
  deriving DecidableEq, Repr

structure Tvshow where
  Id : Atom
  Title : String
  Year : Int
  Sequence : String
  YearStart : Int
  YearEnd : Int
  deriving DecidableEq, Repr

structure Episode where
  Id : Atom
  TvshowId : Atom
  Title : String
  Year : Int
  Season : Int
  EpisodeNum : Int
  deriving DecidableEq, Repr

structure Actor where
  Id : Atom
  FullName : String
  Sequence : String
  deriving DecidableEq, Repr

/-- The value of `new(Movie)`: every field is the zero value of its type. -/
def Movie.new : Movie := ⟨0, "", 0, "", false, false⟩

/-- The value of `new(Tvshow)`. -/
def Tvshow.new : Tvshow := ⟨0, "", 0, "", 0, 0⟩

/-- The value of `new(Episode)`. -/
def Episode.new : Episode := ⟨0, 0, "", 0, 0, 0⟩

/-- The value of `new(Actor)`. -/
def Actor.new : Actor := ⟨0, "", ""⟩

/-- The function `entityString`. -/
def entityString (title : String) (year : Int) : String :=
  let s := if nonEmpty title then title else "N/A"
  if year > 0 then s ++ sf " (" (fmtD year) ")" else s

/-! ### Accessors (on a non-nil receiver) -/

def Movie.Ident (e : Movie) : Atom := e.Id
def Movie.Type (_e : Movie) : EntityKind := EntityMovie
def Movie.Name (e : Movie) : String := e.Title
def Movie.EntityYear (e : Movie) : Int := e.Year
def Movie.String (e : Movie) : String := entityString e.Title e.Year

def Tvshow.Ident (e : Tvshow) : Atom := e.Id
def Tvshow.Type (_e : Tvshow) : EntityKind := EntityTvshow
def Tvshow.Name (e : Tvshow) : String := e.Title
def Tvshow.EntityYear (e : Tvshow) : Int := e.Year
def Tvshow.String (e : Tvshow) : String := entityString e.Title e.Year

def Episode.Ident (e : Episode) : Atom := e.Id
def Episode.Type (_e : Episode) : EntityKind := EntityEpisode
def Episode.Name (e : Episode) : String := e.Title
def Episode.EntityYear (e : Episode) : Int := e.Year
def Episode.String (e : Episode) : String := entityString e.Title e.Year

def Actor.Ident (e : Actor) : Atom := e.Id
def Actor.Type (_e : Actor) : EntityKind := EntityActor
def Actor.Name (e : Actor) : String := e.FullName
def Actor.EntityYear (_e : Actor) : Int := 0
def Actor.String (e : Actor) : String := e.FullName

/-! ### Row deserialization

`Scan` has a pointer receiver. On a nil receiver the guard points the local
variable `e` at a fresh record, which the caller never sees; the result is the
record the caller's pointer refers to after the call, and the error. -/

/-- The call `rs.Scan(&e.Id, &e.Title, &e.Year, &e.Sequence, &e.Tv, &e.Video)`
on the record `e`. -/
def Movie.scanFields (e : Movie) (rs : RowScanner) : Movie × Option Error :=
  let r := rs.Scan [.atom e.Id, .str e.Title, .int e.Year, .str e.Sequence,
    .bool e.Tv, .bool e.Video]
  ({ Id := Dest.atomOr r.1[0]? e.Id
     Title := Dest.strOr r.1[1]? e.Title
     Year := Dest.intOr r.1[2]? e.Year
     Sequence := Dest.strOr r.1[3]? e.Sequence
     Tv := Dest.boolOr r.1[4]? e.Tv
     Video := Dest.boolOr r.1[5]? e.Video }, r.2)

def Movie.Scan (e : Option Movie) (rs : RowScanner) : Option Movie × Option Error :=
  match e with
  | none => (none, (Movie.scanFields Movie.new rs).2)
  | some m => (some (Movie.scanFields m rs).1, (Movie.scanFields m rs).2)

/-- The call `rs.Scan(&e.Id, &e.Title, &e.Year, &e.Sequence, &e.YearStart,
&e.YearEnd)` on the record `e`. -/
def Tvshow.scanFields (e : Tvshow) (rs : RowScanner) : Tvshow × Option Error :=
  let r := rs.Scan [.atom e.Id, .str e.Title, .int e.Year, .str e.Sequence,
    .int e.YearStart, .int e.YearEnd]
  ({ Id := Dest.atomOr r.1[0]? e.Id
     Title := Dest.strOr r.1[1]? e.Title
     Year := Dest.intOr r.1[2]? e.Year
     Sequence := Dest.strOr r.1[3]? e.Sequence
     YearStart := Dest.intOr r.1[4]? e.YearStart
     YearEnd := Dest.intOr r.1[5]? e.YearEnd }, r.2)

def Tvshow.Scan (e : Option Tvshow) (rs : RowScanner) : Option Tvshow × Option Error :=
  match e with
  | none => (none, (Tvshow.scanFields Tvshow.new rs).2)
  | some m => (some (Tvshow.scanFields m rs).1, (Tvshow.scanFields m rs).2)

/-- The call `rs.Scan(&e.Id, &e.TvshowId, &e.Title, &e.Year, &e.Season,
&e.EpisodeNum)` on the record `e`. -/
def Episode.scanFields (e : Episode) (rs : RowScanner) : Episode × Option Error :=
  let r := rs.Scan [.atom e.Id, .atom e.TvshowId, .str e.Title, .int e.Year,
    .int e.Season, .int e.EpisodeNum]
  ({ Id := Dest.atomOr r.1[0]? e.Id
     TvshowId := Dest.atomOr r.1[1]? e.TvshowId
     Title := Dest.strOr r.1[2]? e.Title
     Year := Dest.intOr r.1[3]? e.Year
     Season := Dest.intOr r.1[4]? e.Season
     EpisodeNum := Dest.intOr r.1[5]? e.EpisodeNum }, r.2)

def Episode.Scan (e : Option Episode) (rs : RowScanner) : Option Episode × Option Error :=
  match e with
  | none => (none, (Episode.scanFields Episode.new rs).2)
  | some m => (some (Episode.scanFields m rs).1, (Episode.scanFields m rs).2)

/-- The call `rs.Scan(&e.Id, &e.FullName, &e.Sequence)` on the record `e`. -/
def Actor.scanFields (e : Actor) (rs : RowScanner) : Actor × Option Error :=
  let r := rs.Scan [.atom e.Id, .str e.FullName, .str e.Sequence]
  ({ Id := Dest.atomOr r.1[0]? e.Id
     FullName := Dest.strOr r.1[1]? e.FullName
     Sequence := Dest.strOr r.1[2]? e.Sequence }, r.2)

def Actor.Scan (e : Option Actor) (rs : RowScanner) : Option Actor × Option Error :=
  match e with
  | none => (none, (Actor.scanFields Actor.new rs).2)
  | some m => (some (Actor.scanFields m rs).1, (Actor.scanFields m rs).2)

/-! ## The per-category loaders -/

def movieQuery : String :=
  "\n\t\tSELECT m.atom_id, n.name, m.year, m.sequence, m.tv, m.video" ++
  "\n\t\tFROM movie AS m" ++
  "\n\t\tLEFT JOIN name AS n ON n.atom_id = m.atom_id" ++
  "\n\t\tWHERE m.atom_id = $1" ++
  "\n\t\t"

def tvshowQuery : String :=
  "\n\t\tSELECT t.atom_id, n.name, t.year, t.sequence, t.year_start, t.year_end" ++
  "\n\t\tFROM tvshow AS t" ++
  "\n\t\tLEFT JOIN name AS n ON n.atom_id = t.atom_id" ++
  "\n\t\tWHERE t.atom_id = $1" ++
  "\n\t\t"

def episodeQuery : String :=
  "\n\t\tSELECT e.atom_id, e.tvshow_atom_id, n.name," ++
  "\n\t\t\t   e.year, e.season, e.episode_num" ++
  "\n\t\tFROM episode AS e" ++
  "\n\t\tLEFT JOIN name AS n ON n.atom_id = e.atom_id" ++
  "\n\t\tWHERE e.atom_id = $1" ++
  "\n\t\t"

def actorQuery : String :=
  "\n\t\tSELECT a.atom_id, n.name, a.sequence" ++
  "\n\t\tFROM actor AS a" ++
  "\n\t\tLEFT JOIN name AS n ON n.atom_id = a.atom_id" ++
  "\n\t\tWHERE a.atom_id = $1" ++
  "\n\t\t"

/-- What a loader hands back: the pointer to its record, the error, and the
history extended by the query it issued. -/
structure Loaded (α : Type) where
  ptr : Option α
  err : Option Error
  hist : List Call

/-- The function `AtomToMovie`, run after the calls in `h`. -/
def AtomToMovie (db : Queryer) (id : Atom) (h : List Call) : Loaded Movie :=
  let e := some Movie.new
  let r := Movie.Scan e (db.QueryRow h movieQuery id)
  ⟨r.1, r.2, h ++ [⟨movieQuery, id⟩]⟩

/-- The function `AtomToTvshow`, run after the calls in `h`. -/
def AtomToTvshow (db : Queryer) (id : Atom) (h : List Call) : Loaded Tvshow :=
  let e := some Tvshow.new
  let r := Tvshow.Scan e (db.QueryRow h tvshowQuery id)
  ⟨r.1, r.2, h ++ [⟨tvshowQuery, id⟩]⟩

/-- The function `AtomToEpisode`, run after the calls in `h`. -/
def AtomToEpisode (db : Queryer) (id : Atom) (h : List Call) : Loaded Episode :=
  let e := some Episode.new
  let r := Episode.Scan e (db.QueryRow h episodeQuery id)
  ⟨r.1, r.2, h ++ [⟨episodeQuery, id⟩]⟩

/-- The function `AtomToActor`, run after the calls in `h`. -/
def AtomToActor (db : Queryer) (id : Atom) (h : List Call) : Loaded Actor :=
  let e := some Actor.new
  let r := Actor.Scan e (db.QueryRow h actorQuery id)
  ⟨r.1, r.2, h ++ [⟨actorQuery, id⟩]⟩

/-- The method `Episode.Tvshow` (value receiver), run after the calls in `h`. -/
def Episode.Tvshow (e : Episode) (db : Queryer) (h : List Call) : Loaded Tvshow :=
  AtomToTvshow db e.TvshowId h

/-! ## The resolver -/

/-- A non-nil value of the interface `Entity`: a pointer to one of the four
records (the pointer itself may be nil). -/
inductive Entity where
  | movie (p : Option Movie)
  | tvshow (p : Option Tvshow)
  | episode (p : Option Episode)
  | actor (p : Option Actor)
  deriving DecidableEq, Repr

/-- The method `Type` through the interface: a constant of the dynamic type,
which does not read the record. -/
def Entity.Type : Entity → EntityKind
  | .movie _ => EntityMovie
  | .tvshow _ => EntityTvshow
  | .episode _ => EntityEpisode
  | .actor _ => EntityActor

/-- The pointer held by the interface value is nil. -/
def Entity.nilPtr : Entity → Bool
  | .movie p => p.isNone
  | .tvshow p => p.isNone
  | .episode p => p.isNone
  | .actor p => p.isNone

/-- What a resolver returns: the entity (`none` is the nil interface), the
error, and the history after its queries. -/
structure Reply where
  entity : Option Entity
  err : Option Error
  hist : List Call
  deriving DecidableEq, Repr

/-- The function `FromAtom`, run after the calls in `h`. -/
def FromAtom (db : Queryer) (ent : EntityKind) (id : Atom) (h : List Call) :
    Outcome Reply :=
  if ent = EntityMovie then
    let r := AtomToMovie db id h
    .ret ⟨some (.movie r.ptr), r.err, r.hist⟩
  else if ent = EntityTvshow then
    let r := AtomToTvshow db id h
    .ret ⟨some (.tvshow r.ptr), r.err, r.hist⟩
  else if ent = EntityEpisode then
    let r := AtomToEpisode db id h
    .ret ⟨some (.episode r.ptr), r.err, r.hist⟩
  else if ent = EntityActor then
    let r := AtomToActor db id h
    .ret ⟨some (.actor r.ptr), r.err, r.hist⟩
  else
    .ret ⟨none, some (ef "Unrecognized entity type: "
      (fmtStringer (EntityKind.String ent)) ""), h⟩

/-- The function `fromAtomGuess`, run after the calls in `h`. -/
def fromAtomGuess (db : Queryer) (id : Atom) (h : List Call) : Outcome Reply :=
  let r1 := AtomToMovie db id h
  if r1.err = none then .ret ⟨some (.movie r1.ptr), none, r1.hist⟩
  else
    let r2 := AtomToTvshow db id r1.hist
    if r2.err = none then .ret ⟨some (.tvshow r2.ptr), none, r2.hist⟩
    else
      let r3 := AtomToEpisode db id r2.hist
      if r3.err = none then .ret ⟨some (.episode r3.ptr), none, r3.hist⟩
      else
        let r4 := AtomToActor db id r3.hist
        if r4.err = none then .ret ⟨some (.actor r4.ptr), none, r4.hist⟩
        else
          .ret ⟨none, some (ef "Could not find any entity corresponding to atom "
            (fmtD id) ""), r4.hist⟩

end imdb

namespace imdb

/-! ## Vocabulary of the statements -/

/-- The four names of the closed set, in the order of the map literal. -/
def Spec.names : List String := ["movie", "tvshow", "episode", "actor"]

/-- The four categories of the closed set, in priority order. -/
def Spec.kinds : List EntityKind := [EntityMovie, EntityTvshow, EntityEpisode, EntityActor]

/-- The first outcome without an error in a list of loader outcomes, `none`
when every outcome carries an error. -/
def Spec.firstSuccess : List (Entity × Option Error) → Option Entity
  | [] => none
  | (e, none) :: _ => some e
  | (_, some _) :: rest => Spec.firstSuccess rest

/-- The outcomes of the four loaders in the order movie, tvshow, episode,
actor, each one run after the queries of the loaders before it. -/
def Spec.outcomes (db : Queryer) (id : Atom) (h : List Call) : List (Entity × Option Error) :=
  let h1 := h ++ [⟨movieQuery, id⟩]
  let h2 := h1 ++ [⟨tvshowQuery, id⟩]
  let h3 := h2 ++ [⟨episodeQuery, id⟩]
  [(.movie (AtomToMovie db id h).ptr, (AtomToMovie db id h).err),
   (.tvshow (AtomToTvshow db id h1).ptr, (AtomToTvshow db id h1).err),
   (.episode (AtomToEpisode db id h2).ptr, (AtomToEpisode db id h2).err),
   (.actor (AtomToActor db id h3).ptr, (AtomToActor db id h3).err)]

/-- The outcome of the loader of category `c` run after the calls in `h`, as
an entity and an error; `none` when `c` is outside the closed set. -/
def Spec.load (db : Queryer) (c : EntityKind) (id : Atom) (h : List Call) :
    Option (Entity × Option Error) :=
  if c = EntityMovie then
    some (.movie (AtomToMovie db id h).ptr, (AtomToMovie db id h).err)
  else if c = EntityTvshow then
    some (.tvshow (AtomToTvshow db id h).ptr, (AtomToTvshow db id h).err)
  else if c = EntityEpisode then
    some (.episode (AtomToEpisode db id h).ptr, (AtomToEpisode db id h).err)
  else if c = EntityActor then
    some (.actor (AtomToActor db id h).ptr, (AtomToActor db id h).err)
  else none

/-- The number of loaders tried on a list of loader outcomes: those up to and
including the first without an error, all of them when every one failed. -/
def Spec.attempts : List (Entity × Option Error) → Nat
  | [] => 0
  | (_, none) :: _ => 1
  | (_, some _) :: rest => 1 + Spec.attempts rest

/-- The loaders of `db` are deterministic on `id`: the outcome of each loader
does not depend on the calls made before it. -/
def Spec.deterministic (db : Queryer) (id : Atom) : Prop :=
  ∀ (c : EntityKind) (h h2 : List Call), Spec.load db c id h = Spec.load db c id h2

/-! ## The scanner of package `database/sql`

`csql.Queryer.QueryRow` returns a `*sql.Row`. Its `Scan` converts the columns
of the row into the destinations from left to right with `convertAssign` and
stops at the first column that does not convert; a NULL column converts into a
pointer, a `[]byte`, an `interface{}` or a `sql.Scanner`, and into none of the
destination types of this file. -/

/-- The kind `reflect` reports for the type of a destination. -/
def Dest.kindName : Dest → String
  | .atom _ => "int32"
  | .str _ => "string"
  | .int _ => "int"
  | .bool _ => "bool"

/-- Two contents of one Go type. -/
def Dest.sameType : Dest → Dest → Bool
  | .atom _, .atom _ => true
  | .str _, .str _ => true
  | .int _, .int _ => true
  | .bool _, .bool _ => true
  | _, _ => false

/-- The loop of `Rows.Scan` from column `i` on. A column is `none` for SQL
NULL and `some v` for a value that converts to `v` in a destination of the
type of `v` (conversions between types are left out: such a column is
refused). The destinations before the failing column have been stored. The
messages are abridged. -/
def Sql.scanColumns : Nat → List (Option Dest) → List Dest → List Dest × Option Error
  | i, none :: _, d :: ds =>
    (d :: ds, some ⟨"sql: Scan error on column index " ++ toString i ++
      ": converting NULL to " ++ d.kindName ++ " is unsupported"⟩)
  | i, some v :: cs, d :: ds =>
    if v.sameType d then
      (v :: (Sql.scanColumns (i + 1) cs ds).1, (Sql.scanColumns (i + 1) cs ds).2)
    else
      (d :: ds, some ⟨"sql: Scan error on column index " ++ toString i ++
        ": unsupported Scan"⟩)
  | _, _, ds => (ds, none)

/-- The method `Scan` of a `*sql.Row` positioned on a row with the columns
`cols`: the number of destinations must be the number of columns. -/
def Sql.row (cols : List (Option Dest)) : RowScanner :=
  ⟨fun ds =>
    if cols.length = ds.length then Sql.scanColumns 0 cols ds
    else (ds, some ⟨"sql: expected " ++ toString cols.length ++
      " destination arguments in Scan, not " ++ toString ds.length⟩)⟩

/-! ## Sample executors -/

/-- A scanner positioned on a row: it stores the row's values and succeeds. -/
def Sample.row (vals : List Dest) : RowScanner := ⟨fun _ => (vals, none)⟩

/-- A scanner over an empty result: it stores nothing and reports no rows. -/
def Sample.noRows : RowScanner := ⟨fun ds => (ds, some ⟨"sql: no rows in result set"⟩)⟩

def Sample.alien : List Dest :=
  [.atom 7, .str "Alien", .int 1979, .str "", .bool false, .bool false]

/-- A store in which identifier 7 is a movie and nothing else. -/
def Sample.movieOnly : Queryer :=
  ⟨fun _ q id => if q = movieQuery ∧ id = 7 then Sample.row Sample.alien else Sample.noRows⟩

/-- A store in which identifier 9 is an actor and nothing else. -/
def Sample.actorOnly : Queryer :=
  ⟨fun _ q id =>
    if q = actorQuery ∧ id = 9 then Sample.row [.atom 9, .str "Sigourney Weaver", .str ""]
    else Sample.noRows⟩

/-- A store in which identifier 7 is both a movie and an actor. -/
def Sample.movieAndActor : Queryer :=
  ⟨fun _ q id =>
    if q = movieQuery ∧ id = 7 then Sample.row Sample.alien
    else if q = actorQuery ∧ id = 7 then Sample.row [.atom 7, .str "Alien Smith", .str "I"]
    else Sample.noRows⟩

/-- A store of `database/sql` in which identifier 7 is a movie with a row in
the name table, and identifier 8 a movie without one: the left join gives its
name column as NULL. -/
def Sample.unnamedMovie : Queryer :=
  ⟨fun _ q id =>
    if q = movieQuery ∧ id = 7 then
      Sql.row [some (.atom 7), some (.str "Alien"), some (.int 1979), some (.str ""),
        some (.bool false), some (.bool false)]
    else if q = movieQuery ∧ id = 8 then
      Sql.row [some (.atom 8), none, some (.int 1986), some (.str ""),
        some (.bool false), some (.bool false)]
    else Sample.noRows⟩

/-! ## Helper lemmas -/

theorem utf8ByteSize_go_pos (c : Char) (cs : List Char) :
    0 < String.utf8ByteSize.go (c :: cs) := by
  have hc : 0 < c.utf8Size := Char.utf8Size_pos c
  simp only [String.utf8ByteSize.go]
  omega

/-- Go's `len(s) > 0` holds exactly for the strings other than `""`. -/
theorem nonEmpty_iff (s : String) : nonEmpty s = true ↔ s ≠ "" := by
  rcases s with ⟨cs⟩
  cases cs with
  | nil => simp [nonEmpty, String.utf8ByteSize, String.utf8ByteSize.go]
  | cons c cs =>
    have h := utf8ByteSize_go_pos c cs
    have hne : (⟨c :: cs⟩ : String) ≠ "" := by
      intro hh
      have := congrArg String.data hh
      simp at this
    simp only [nonEmpty, String.utf8ByteSize, decide_eq_true_eq]
    exact ⟨fun _ => hne, fun _ => h⟩

theorem int_outside_one_to_four (e : Int) (h1 : ¬ e = 1) (h2 : ¬ e = 2) (h3 : ¬ e = 3)
    (h4 : ¬ e = 4) : e ≤ 0 ∨ 5 ≤ e := by
  omega

theorem lookup_Entities (s : String) :
    Entities.lookup s =
      if s = "movie" then some EntityMovie
      else if s = "tvshow" then some EntityTvshow
      else if s = "episode" then some EntityEpisode
      else if s = "actor" then some EntityActor
      else none := by
  simp only [Entities, List.lookup]
  by_cases h1 : s = "movie"
  · subst h1; rfl
  · by_cases h2 : s = "tvshow"
    · subst h2; rfl
    · by_cases h3 : s = "episode"
      · subst h3; rfl
      · by_cases h4 : s = "actor"
        · subst h4; rfl
        · have e1 : (s == "movie") = false := by simpa using h1
          have e2 : (s == "tvshow") = false := by simpa using h2
          have e3 : (s == "episode") = false := by simpa using h3
          have e4 : (s == "actor") = false := by simpa using h4
          simp [e1, e2, e3, e4, h1, h2, h3, h4]


theorem load_cases (db : Queryer) (c : EntityKind) (id : Atom) (h : List Call)
    (p : Entity × Option Error) (hl : Spec.load db c id h = some p) :
    (c = EntityMovie ∧ p = (.movie (AtomToMovie db id h).ptr, (AtomToMovie db id h).err)) ∨
    (c = EntityTvshow ∧ p = (.tvshow (AtomToTvshow db id h).ptr, (AtomToTvshow db id h).err)) ∨
    (c = EntityEpisode ∧
      p = (.episode (AtomToEpisode db id h).ptr, (AtomToEpisode db id h).err)) ∨
    (c = EntityActor ∧ p = (.actor (AtomToActor db id h).ptr, (AtomToActor db id h).err)) := by
  unfold Spec.load at hl
  by_cases h1 : c = EntityMovie
  · rw [if_pos h1] at hl
    exact Or.inl ⟨h1, (Option.some.inj hl).symm⟩
  · rw [if_neg h1] at hl
    by_cases h2 : c = EntityTvshow
    · rw [if_pos h2] at hl
      exact Or.inr (Or.inl ⟨h2, (Option.some.inj hl).symm⟩)
    · rw [if_neg h2] at hl
      by_cases h3 : c = EntityEpisode
      · rw [if_pos h3] at hl
        exact Or.inr (Or.inr (Or.inl ⟨h3, (Option.some.inj hl).symm⟩))
      · rw [if_neg h3] at hl
        by_cases h4 : c = EntityActor
        · rw [if_pos h4] at hl
          exact Or.inr (Or.inr (Or.inr ⟨h4, (Option.some.inj hl).symm⟩))
        · rw [if_neg h4] at hl
          exact Option.noConfusion hl

/-- On a category with a loader, `FromAtom` returns that loader's outcome. -/
theorem FromAtom_of_load (db : Queryer) (c : EntityKind) (id : Atom) (h : List Call)
    (e : Entity) (err : Option Error) (hl : Spec.load db c id h = some (e, err)) :
    e.Type = c ∧ ∃ hh, FromAtom db c id h = .ret ⟨some e, err, hh⟩ := by
  rcases load_cases db c id h _ hl with ⟨hc, hp⟩ | ⟨hc, hp⟩ | ⟨hc, hp⟩ | ⟨hc, hp⟩ <;>
    · subst hc
      obtain ⟨he, herr⟩ := Prod.mk.inj hp
      subst he
      subst herr
      exact ⟨rfl, _, rfl⟩

theorem firstSuccess_of_loads (db : Queryer) (id : Atom) (X : EntityKind) (rec : Entity)
    (hX : ∀ h, Spec.load db X id h = some (rec, none))
    (hY : ∀ Y ∈ Spec.kinds, Y ≠ X → ∀ h, ∃ e err, Spec.load db Y id h = some (e, some err))
    (h : List Call) : Spec.firstSuccess (Spec.outcomes db id h) = some rec := by
  have out : ∀ (c : EntityKind) (hh : List Call) (p : Entity × Option Error),
      Spec.load db c id hh = some p → c ∈ Spec.kinds →
      (c = X ∧ p = (rec, none)) ∨ (c ≠ X ∧ ∃ e err, p = (e, some err)) := by
    intro c hh p hp hc
    by_cases hcx : c = X
    · subst hcx
      exact Or.inl ⟨rfl, Option.some.inj (hp.symm.trans (hX hh))⟩
    · obtain ⟨e, err, he⟩ := hY c hc hcx hh
      exact Or.inr ⟨hcx, e, err, Option.some.inj (hp.symm.trans he)⟩
  have hXmem : X ∈ Spec.kinds := by
    rcases load_cases db X id [] _ (hX []) with ⟨hc, _⟩ | ⟨hc, _⟩ | ⟨hc, _⟩ | ⟨hc, _⟩ <;>
      · rw [hc]; decide
  simp only [Spec.outcomes]
  have o1 := out EntityMovie h _ rfl (by decide)
  have o2 := out EntityTvshow (h ++ [⟨movieQuery, id⟩]) _ rfl (by decide)
  have o3 := out EntityEpisode (h ++ [⟨movieQuery, id⟩] ++ [⟨tvshowQuery, id⟩]) _ rfl
    (by decide)
  have o4 := out EntityActor
    (h ++ [⟨movieQuery, id⟩] ++ [⟨tvshowQuery, id⟩] ++ [⟨episodeQuery, id⟩]) _ rfl (by decide)
  rcases o1 with ⟨_, p1⟩ | ⟨n1, e1, r1, p1⟩
  · rw [p1]; rfl
  · rw [p1]
    rcases o2 with ⟨_, p2⟩ | ⟨n2, e2, r2, p2⟩
    · rw [p2]; rfl
    · rw [p2]
      rcases o3 with ⟨_, p3⟩ | ⟨n3, e3, r3, p3⟩
      · rw [p3]; rfl
      · rw [p3]
        rcases o4 with ⟨_, p4⟩ | ⟨n4, e4, r4, p4⟩
        · rw [p4]; rfl
        · exfalso
          simp only [Spec.kinds, List.mem_cons, List.mem_singleton, List.not_mem_nil,
            or_false] at hXmem
          rcases hXmem with c | c | c | c
          · exact n1 c.symm
          · exact n2 c.symm
          · exact n3 c.symm
          · exact n4 c.symm

/-! ## The category enumeration -/

/-- Claim C1. The category/name mapping round-trips: each of the four
categories is rendered by `String` to a name that `entityKindFromString` maps
back to it, each of the four names is mapped to a category that `String`
renders back to it, and none of these calls panics. -/
theorem kind_name_roundtrip :
    (EntityKind.String EntityMovie).bind entityKindFromString = .ret EntityMovie ∧
    (EntityKind.String EntityTvshow).bind entityKindFromString = .ret EntityTvshow ∧
    (EntityKind.String EntityEpisode).bind entityKindFromString = .ret EntityEpisode ∧
    (EntityKind.String EntityActor).bind entityKindFromString = .ret EntityActor ∧
    (entityKindFromString "movie").bind EntityKind.String = .ret "movie" ∧
    (entityKindFromString "tvshow").bind EntityKind.String = .ret "tvshow" ∧
    (entityKindFromString "episode").bind EntityKind.String = .ret "episode" ∧
    (entityKindFromString "actor").bind EntityKind.String = .ret "actor" := by
  decide

/-- Claim C6. `entityKindFromString s` panics exactly when `s` is none of the
four lowercase names; when it returns, the result is one of the four
categories and not `EntityNone`. The names `""`, `"Movie"` and `"none"` panic. -/
theorem entityKindFromString_panics_iff :
    (∀ s : String,
      ((entityKindFromString s).panics = true ↔ s ∉ Spec.names) ∧
      ((entityKindFromString s).panics = true ∨
        ∃ c, entityKindFromString s = .ret c ∧ c ∈ Spec.kinds ∧ c ≠ EntityNone)) ∧
    (entityKindFromString "").panics = true ∧
    (entityKindFromString "Movie").panics = true ∧
    (entityKindFromString "none").panics = true := by
  refine ⟨fun s => ?_, by decide, by decide, by decide⟩
  simp only [entityKindFromString, lookup_Entities, Spec.names, Spec.kinds,
    List.mem_cons, List.mem_singleton, List.not_mem_nil, or_false, not_or]
  by_cases h1 : s = "movie"
  · subst h1; simp [Outcome.panics, EntityMovie, EntityNone]
  · by_cases h2 : s = "tvshow"
    · subst h2; simp [Outcome.panics, EntityTvshow, EntityNone]
    · by_cases h3 : s = "episode"
      · subst h3; simp [Outcome.panics, EntityEpisode, EntityNone]
      · by_cases h4 : s = "actor"
        · subst h4; simp [Outcome.panics, EntityActor, EntityNone]
        · simp [h1, h2, h3, h4, Outcome.panics]

/-- Claim C7. `e.String()` panics exactly when `e` is none of the four
categories, that is when `e ≤ 0` or `5 ≤ e` (`EntityNone`, the negative
values and the values above 4); on the four categories it returns the
lowercase name. -/
theorem String_panics_iff :
    (∀ e : EntityKind,
      ((EntityKind.String e).panics = true ↔ e ∉ Spec.kinds) ∧
      ((EntityKind.String e).panics = true ↔ (e ≤ 0 ∨ 5 ≤ e))) ∧
    EntityKind.String EntityMovie = .ret "movie" ∧
    EntityKind.String EntityTvshow = .ret "tvshow" ∧
    EntityKind.String EntityEpisode = .ret "episode" ∧
    EntityKind.String EntityActor = .ret "actor" ∧
    EntityKind.String EntityNone = .panic "unrecognized entity 0" := by
  refine ⟨fun e => ?_, by decide, by decide, by decide, by decide, by decide⟩
  simp only [EntityKind.String, Spec.kinds, EntityMovie, EntityTvshow, EntityEpisode,
    EntityActor, List.mem_cons, List.mem_singleton, List.not_mem_nil, or_false, not_or]
  by_cases h1 : e = 1
  · subst h1; decide
  · by_cases h2 : e = 2
    · subst h2; decide
    · by_cases h3 : e = 3
      · subst h3; decide
      · by_cases h4 : e = 4
        · subst h4; decide
        · simp only [h1, h2, h3, h4, if_false, Outcome.panics, not_false_eq_true,
            and_self, true_iff]
          exact ⟨trivial, int_outside_one_to_four e h1 h2 h3 h4⟩

/-! ## Display strings -/

/-- Claim C8. `entityString t y` is `t`, or `N/A` when `t` is empty, followed
by the decimal year in parentheses after a blank exactly when `y > 0`, and by
nothing otherwise; with the three sample values of the specification. -/
theorem entityString_format :
    (∀ (t : String) (y : Int),
      entityString t y =
        (if t ≠ "" then t else "N/A") ++ (if y > 0 then " (" ++ fmtD y ++ ")" else "")) ∧
    entityString "Alien" 1979 = "Alien (1979)" ∧
    entityString "" 0 = "N/A" ∧
    entityString "X" 0 = "X" := by
  refine ⟨fun t y => ?_, by decide, by decide, by decide⟩
  have hne : (if nonEmpty t = true then t else "N/A") = (if t ≠ "" then t else "N/A") := by
    by_cases h : t = ""
    · subst h; decide
    · have := (nonEmpty_iff t).2 h
      simp [this, h]
  simp only [entityString, sf, hne]
  by_cases hy : y > 0
  · simp only [hy, if_true, String.append_assoc]
  · simp only [hy, if_false, String.append_empty]

/-- Claim C9. The display string of a `Movie`, a `Tvshow` and an `Episode` is
`entityString` of its name and year, and so is that of an `Actor` whose
`FullName` is not empty; an `Actor` with the empty `FullName` has the display
string `""`, where `entityString` of its name and year is `N/A`. -/
theorem Actor_String_empty_name :
    (∀ e : Movie, e.String = entityString e.Name e.EntityYear) ∧
    (∀ e : Tvshow, e.String = entityString e.Name e.EntityYear) ∧
    (∀ e : Episode, e.String = entityString e.Name e.EntityYear) ∧
    (∀ e : Actor, e.FullName ≠ "" → e.String = entityString e.Name e.EntityYear) ∧
    Actor.String ⟨1, "", ""⟩ = "" ∧
    entityString (Actor.Name ⟨1, "", ""⟩) (Actor.EntityYear ⟨1, "", ""⟩) = "N/A" ∧
    Actor.String ⟨1, "", ""⟩ ≠
      entityString (Actor.Name ⟨1, "", ""⟩) (Actor.EntityYear ⟨1, "", ""⟩) := by
  refine ⟨fun _ => rfl, fun _ => rfl, fun _ => rfl, ?_, by decide, by decide, by decide⟩
  intro e hne
  have hn : nonEmpty e.FullName = true := (nonEmpty_iff e.FullName).2 hne
  simp [Actor.String, Actor.Name, Actor.EntityYear, entityString, hn]

/-! ## The resolver -/

/-- Claim C4. For each of the four categories, `FromAtom` returns the pointer
and the error of the one matching loader unchanged, whether or not that error
is nil, and the only query it issues is that loader's; the four loaders issue
four different queries. -/
theorem FromAtom_dispatch (db : Queryer) (id : Atom) (h : List Call) :
    FromAtom db EntityMovie id h =
      .ret ⟨some (.movie (AtomToMovie db id h).ptr), (AtomToMovie db id h).err,
        h ++ [⟨movieQuery, id⟩]⟩ ∧
    FromAtom db EntityTvshow id h =
      .ret ⟨some (.tvshow (AtomToTvshow db id h).ptr), (AtomToTvshow db id h).err,
        h ++ [⟨tvshowQuery, id⟩]⟩ ∧
    FromAtom db EntityEpisode id h =
      .ret ⟨some (.episode (AtomToEpisode db id h).ptr), (AtomToEpisode db id h).err,
        h ++ [⟨episodeQuery, id⟩]⟩ ∧
    FromAtom db EntityActor id h =
      .ret ⟨some (.actor (AtomToActor db id h).ptr), (AtomToActor db id h).err,
        h ++ [⟨actorQuery, id⟩]⟩ ∧
    [movieQuery, tvshowQuery, episodeQuery, actorQuery].Nodup := by
  refine ⟨rfl, rfl, rfl, rfl, ?_⟩
  decide

/-- Claim C5. For a category outside the closed set, `FromAtom` returns
normally, with a nil entity and the error whose message is
`Unrecognized entity type: ` followed by the rendering of the category, and
issues no query; the `String` method of that category panics, and the panic
stays inside the rendering. -/
theorem FromAtom_unrecognized (db : Queryer) (ent : EntityKind) (id : Atom) (h : List Call)
    (hk : ent ∉ Spec.kinds) :
    FromAtom db ent id h =
      .ret ⟨none,
        some ⟨"Unrecognized entity type: " ++ fmtStringer (EntityKind.String ent)⟩, h⟩ ∧
    (EntityKind.String ent).panics = true := by
  have h1 : ¬ ent = EntityMovie := fun e => hk (by simp [Spec.kinds, e])
  have h2 : ¬ ent = EntityTvshow := fun e => hk (by simp [Spec.kinds, e])
  have h3 : ¬ ent = EntityEpisode := fun e => hk (by simp [Spec.kinds, e])
  have h4 : ¬ ent = EntityActor := fun e => hk (by simp [Spec.kinds, e])
  constructor
  · simp only [FromAtom, h1, h2, h3, h4, if_false, ef, sf, String.append_empty]
  · simp only [EntityKind.String, h1, h2, h3, h4, if_false, Outcome.panics]

/-- Witness of claim C5 at `EntityNone`, with the message in full. -/
theorem FromAtom_unrecognized_witness :
    EntityNone ∉ Spec.kinds ∧
    FromAtom Sample.movieOnly EntityNone 7 [] =
      .ret ⟨none,
        some ⟨"Unrecognized entity type: %!s(PANIC=String method: unrecognized entity 0)"⟩,
        []⟩ :=
  ⟨by decide, (FromAtom_unrecognized Sample.movieOnly EntityNone 7 [] (by decide)).1⟩

theorem fromAtomGuess_cases (db : Queryer) (id : Atom) (h : List Call) :
    ∃ r, fromAtomGuess db id h = .ret r ∧
      r.entity = Spec.firstSuccess (Spec.outcomes db id h) ∧
      (r.err = none ↔ r.entity ≠ none) ∧
      (r.err ≠ none ↔ ∀ o ∈ Spec.outcomes db id h, o.2 ≠ none) ∧
      (r.err = none ∨
        r.err = some ⟨"Could not find any entity corresponding to atom " ++ fmtD id⟩) := by
  simp only [fromAtomGuess, Spec.outcomes, AtomToMovie, AtomToTvshow, AtomToEpisode,
    AtomToActor, ef, sf, String.append_empty]
  generalize Movie.Scan (some Movie.new) (db.QueryRow h movieQuery id) = m
  generalize Tvshow.Scan (some Tvshow.new)
    (db.QueryRow (h ++ [⟨movieQuery, id⟩]) tvshowQuery id) = t
  generalize Episode.Scan (some Episode.new)
    (db.QueryRow (h ++ [⟨movieQuery, id⟩] ++ [⟨tvshowQuery, id⟩]) episodeQuery id) = e
  generalize Actor.Scan (some Actor.new)
    (db.QueryRow (h ++ [⟨movieQuery, id⟩] ++ [⟨tvshowQuery, id⟩] ++ [⟨episodeQuery, id⟩])
      actorQuery id) = a
  rcases m with ⟨mp, _ | me⟩ <;> rcases t with ⟨tp, _ | te⟩ <;>
    rcases e with ⟨ep, _ | ee⟩ <;> rcases a with ⟨ap, _ | ae⟩ <;>
    simp [Spec.firstSuccess]

/-- Claim C2. `fromAtomGuess` returns normally and its entity is the record
of the first loader without an error in the order movie, tvshow, episode,
actor, returned with a nil error; so a record of a lower-priority category is
returned only when every loader of higher priority failed, and a second run
(any executor, any earlier calls) with the same four loader outcomes returns
the same entity and the same error. -/
theorem fromAtomGuess_priority (db : Queryer) (id : Atom) (h : List Call) :
    ∃ r, fromAtomGuess db id h = .ret r ∧
      r.entity = Spec.firstSuccess (Spec.outcomes db id h) ∧
      (r.entity = none ∨ r.err = none) ∧
      ∀ (db2 : Queryer) (h2 : List Call),
        Spec.outcomes db2 id h2 = Spec.outcomes db id h →
        ∃ r2, fromAtomGuess db2 id h2 = .ret r2 ∧ r2.entity = r.entity ∧ r2.err = r.err := by
  obtain ⟨r, hr, hent, herr, hall, hmsg⟩ := fromAtomGuess_cases db id h
  refine ⟨r, hr, hent, ?_, ?_⟩
  · by_cases hn : r.entity = none
    · exact Or.inl hn
    · exact Or.inr (herr.2 hn)
  · intro db2 h2 hsame
    obtain ⟨r2, hr2, hent2, herr2, hall2, hmsg2⟩ := fromAtomGuess_cases db2 id h2
    have he : r2.entity = r.entity := by rw [hent2, hent, hsame]
    refine ⟨r2, hr2, he, ?_⟩
    by_cases hn : r.entity = none
    · have h1 : r.err ≠ none := fun c => (herr.1 c) hn
      have h2 : r2.err ≠ none := fun c => (herr2.1 c) (he.trans hn)
      rcases hmsg with c | c
      · exact absurd c h1
      · rcases hmsg2 with c2 | c2
        · exact absurd c2 h2
        · rw [c, c2]
    · rw [herr.2 hn, herr2.2 (fun c => hn (he.symm.trans c))]

set_option maxRecDepth 100000 in
/-- Witness of claim C2: identifier 7 is a movie and an actor, the movie
record is returned, and a run after an earlier call returns the same. -/
theorem fromAtomGuess_priority_witness :
    fromAtomGuess Sample.movieAndActor 7 [] =
      .ret ⟨some (.movie (some ⟨7, "Alien", 1979, "", false, false⟩)), none,
        [⟨movieQuery, 7⟩]⟩ ∧
    FromAtom Sample.movieAndActor EntityActor 7 [] =
      .ret ⟨some (.actor (some ⟨7, "Alien Smith", "I"⟩)), none, [⟨actorQuery, 7⟩]⟩ ∧
    ∃ r2, fromAtomGuess Sample.movieAndActor 7 [⟨actorQuery, 7⟩] = .ret r2 ∧
      r2.entity = some (.movie (some ⟨7, "Alien", 1979, "", false, false⟩)) ∧
      r2.err = none := by
  obtain ⟨r, hr, _, _, hsame⟩ := fromAtomGuess_priority Sample.movieAndActor 7 []
  have hr0 : fromAtomGuess Sample.movieAndActor 7 [] =
      .ret ⟨some (.movie (some ⟨7, "Alien", 1979, "", false, false⟩)), none,
        [⟨movieQuery, 7⟩]⟩ := by decide
  have hrr : r = ⟨some (.movie (some ⟨7, "Alien", 1979, "", false, false⟩)), none,
      [⟨movieQuery, 7⟩]⟩ := by
    rw [hr0] at hr
    exact (Outcome.ret.inj hr).symm
  subst hrr
  exact ⟨hr0, by decide, hsame Sample.movieAndActor [⟨actorQuery, 7⟩] (by decide)⟩

/-- Claim C3. `fromAtomGuess` returns normally; its error is non-nil exactly
when each of the four loaders returned an error, and then the entity is nil
and the error is the one message
`Could not find any entity corresponding to atom ` followed by the decimal
identifier, in which no loader's error occurs. -/
theorem fromAtomGuess_not_found (db : Queryer) (id : Atom) (h : List Call) :
    ∃ r, fromAtomGuess db id h = .ret r ∧
      (r.err ≠ none ↔ ∀ o ∈ Spec.outcomes db id h, o.2 ≠ none) ∧
      (r.err = none ∨
        (r.entity = none ∧
          r.err = some ⟨"Could not find any entity corresponding to atom " ++ fmtD id⟩)) := by
  obtain ⟨r, hr, _, herr, hall, hmsg⟩ := fromAtomGuess_cases db id h
  refine ⟨r, hr, hall, ?_⟩
  rcases hmsg with c | c
  · exact Or.inl c
  · refine Or.inr ⟨?_, c⟩
    by_contra hn
    have := herr.2 hn
    rw [c] at this
    exact Option.noConfusion this

set_option maxRecDepth 100000 in
/-- Witness of claim C3: identifier 8 is in no table; the four loaders are
tried and the error names the identifier. -/
theorem fromAtomGuess_not_found_witness :
    fromAtomGuess Sample.movieOnly 8 [] =
      .ret ⟨none, some ⟨"Could not find any entity corresponding to atom 8"⟩,
        [⟨movieQuery, 8⟩, ⟨tvshowQuery, 8⟩, ⟨episodeQuery, 8⟩, ⟨actorQuery, 8⟩]⟩ ∧
    ∃ r, fromAtomGuess Sample.movieOnly 8 [] = .ret r ∧
      (r.err ≠ none ↔ ∀ o ∈ Spec.outcomes Sample.movieOnly 8 [], o.2 ≠ none) :=
  ⟨by decide,
   (fromAtomGuess_not_found Sample.movieOnly 8 []).imp fun _ hr => ⟨hr.1, hr.2.1⟩⟩

/-- Claim C10. Let the identifier load under category `X` alone: whenever it
is asked, the loader of `X` returns the record `rec` without an error and the
three other loaders return an error. Then `FromAtom` under each other category
returns an error, and `FromAtom` under `X` and `fromAtomGuess` both return a
nil error and the same entity `rec`, whose `Type()` is `X`. -/
theorem single_category_lookup (db : Queryer) (id : Atom) (X : EntityKind) (rec : Entity)
    (hX : ∀ h, Spec.load db X id h = some (rec, none))
    (hY : ∀ Y ∈ Spec.kinds, Y ≠ X → ∀ h, ∃ e err, Spec.load db Y id h = some (e, some err)) :
    (∀ Y ∈ Spec.kinds, Y ≠ X → ∀ h, ∃ r, FromAtom db Y id h = .ret r ∧ r.err ≠ none) ∧
    (∀ h, ∃ r1 r2, FromAtom db X id h = .ret r1 ∧ fromAtomGuess db id h = .ret r2 ∧
      r1.err = none ∧ r2.err = none ∧ r1.entity = some rec ∧ r2.entity = some rec) ∧
    rec.Type = X := by
  refine ⟨?_, ?_, (FromAtom_of_load db X id [] rec none (hX [])).1⟩
  · intro Y hYk hne h
    obtain ⟨e, err, he⟩ := hY Y hYk hne h
    obtain ⟨_, hh, hf⟩ := FromAtom_of_load db Y id h e (some err) he
    exact ⟨_, hf, fun c => Option.noConfusion c⟩
  · intro h
    obtain ⟨_, hh, hf⟩ := FromAtom_of_load db X id h rec none (hX h)
    obtain ⟨r2, hr2, hent, herr, _, _⟩ := fromAtomGuess_cases db id h
    have hfs := firstSuccess_of_loads db id X rec hX hY h
    have he2 : r2.entity = some rec := hent.trans hfs
    refine ⟨_, r2, hf, hr2, rfl, herr.2 ?_, rfl, he2⟩
    rw [he2]
    exact fun c => Option.noConfusion c

set_option maxRecDepth 100000 in
/-- Witness of claim C10: identifier 9 is an actor and nothing else. -/
theorem single_category_lookup_witness :
    (∀ h, Spec.load Sample.actorOnly EntityActor 9 h =
      some (.actor (some ⟨9, "Sigourney Weaver", ""⟩), none)) ∧
    (∀ Y ∈ Spec.kinds, Y ≠ EntityActor → ∀ h,
      ∃ r, FromAtom Sample.actorOnly Y 9 h = .ret r ∧ r.err ≠ none) ∧
    (∀ h, ∃ r1 r2, FromAtom Sample.actorOnly EntityActor 9 h = .ret r1 ∧
      fromAtomGuess Sample.actorOnly 9 h = .ret r2 ∧
      r1.err = none ∧ r2.err = none ∧
      r1.entity = some (.actor (some ⟨9, "Sigourney Weaver", ""⟩)) ∧
      r2.entity = some (.actor (some ⟨9, "Sigourney Weaver", ""⟩))) ∧
    Entity.Type (.actor (some ⟨9, "Sigourney Weaver", ""⟩)) = EntityActor :=
  have hX : ∀ h, Spec.load Sample.actorOnly EntityActor 9 h =
      some (.actor (some ⟨9, "Sigourney Weaver", ""⟩), none) := fun _ => rfl
  have hY : ∀ Y ∈ Spec.kinds, Y ≠ EntityActor → ∀ h,
      ∃ e err, Spec.load Sample.actorOnly Y 9 h = some (e, some err) := by
    intro Y hYk hne h
    simp only [Spec.kinds, List.mem_cons, List.mem_singleton, List.not_mem_nil,
      or_false] at hYk
    rcases hYk with c | c | c | c
    · subst c; exact ⟨_, _, rfl⟩
    · subst c; exact ⟨_, _, rfl⟩
    · subst c; exact ⟨_, _, rfl⟩
    · exact absurd c hne
  ⟨hX, single_category_lookup Sample.actorOnly 9 EntityActor _ hX hY⟩

/-! ## The episode's show, the year accessor and the absent name -/

/-- Claim C11. `e.Tvshow(db)` returns the pointer and the error that
`FromAtom(db, EntityTvshow, e.TvshowId)` returns, both being those of
`AtomToTvshow(db, e.TvshowId)`; its one query carries the stored `TvshowId`,
and no other field of `e` has a part in the result. The receiver is passed by
value, so the caller's episode stays as it was. -/
theorem Episode_Tvshow_directed (db : Queryer) (e : Episode) (h : List Call) :
    FromAtom db EntityTvshow e.TvshowId h =
      .ret ⟨some (.tvshow (e.Tvshow db h).ptr), (e.Tvshow db h).err, (e.Tvshow db h).hist⟩ ∧
    (e.Tvshow db h).ptr = (AtomToTvshow db e.TvshowId h).ptr ∧
    (e.Tvshow db h).err = (AtomToTvshow db e.TvshowId h).err ∧
    (e.Tvshow db h).hist = h ++ [⟨tvshowQuery, e.TvshowId⟩] ∧
    (∀ (i : Atom) (t : String) (y s n : Int),
      (e.Tvshow db h).ptr = (Episode.Tvshow ⟨i, e.TvshowId, t, y, s, n⟩ db h).ptr ∧
      (e.Tvshow db h).err = (Episode.Tvshow ⟨i, e.TvshowId, t, y, s, n⟩ db h).err ∧
      (e.Tvshow db h).hist = (Episode.Tvshow ⟨i, e.TvshowId, t, y, s, n⟩ db h).hist) ∧
    (Episode.Tvshow ⟨3, 5, "Pilot", 1990, 1, 1⟩ Sample.movieOnly []).hist =
      [⟨tvshowQuery, 5⟩] :=
  ⟨rfl, rfl, rfl, rfl, fun _ _ _ _ _ => ⟨rfl, rfl, rfl⟩, rfl⟩

/-- Claim C13. `EntityYear()` of a `Movie`, a `Tvshow` and an `Episode` is the
stored `Year` (for a `Tvshow` not `YearStart` or `YearEnd`), and `EntityYear()`
of an `Actor` is 0 whatever its fields are. -/
theorem EntityYear_stored :
    (∀ e : Movie, e.EntityYear = e.Year) ∧
    (∀ e : Tvshow, e.EntityYear = e.Year) ∧
    (∀ e : Episode, e.EntityYear = e.Year) ∧
    (∀ e : Actor, e.EntityYear = 0) ∧
    Tvshow.EntityYear ⟨2, "Twin Peaks", 1990, "", 1991, 2017⟩ = 1990 :=
  ⟨fun _ => rfl, fun _ => rfl, fun _ => rfl, fun _ => rfl, rfl⟩

theorem scanColumns_null (cols : List (Option Dest)) :
    ∀ (i k : Nat) (ds : List Dest), cols[k]? = some none → k < ds.length →
      (Sql.scanColumns i cols ds).2 ≠ none := by
  induction cols with
  | nil => intro i k ds hk; simp at hk
  | cons c cs ih =>
    intro i k ds hk hlen
    cases ds with
    | nil => simp at hlen
    | cons d ds =>
      cases c with
      | none => simp [Sql.scanColumns]
      | some v =>
        by_cases hv : v.sameType d = true
        · cases k with
          | zero => simp at hk
          | succ k =>
            simp only [Sql.scanColumns, hv, if_true]
            exact ih (i + 1) k ds (by simpa using hk) (by simpa using hlen)
        · simp [Sql.scanColumns, hv]

/-- A `*sql.Row` with a NULL column among the first `n` reports an error to a
`Scan` with `n` destinations. -/
theorem row_null (cols : List (Option Dest)) (k : Nat) (ds : List Dest)
    (hk : cols[k]? = some none) (hlen : k < ds.length) : ((Sql.row cols).Scan ds).2 ≠ none := by
  by_cases hl : cols.length = ds.length
  · simp only [Sql.row, hl, if_true]
    exact scanColumns_null cols 0 k ds hk hlen
  · simp [Sql.row, hl]

set_option maxRecDepth 100000 in
/-- Claim C12, on the scanner of `database/sql`: each of the four loaders
returns a non-nil error when the name column of its row is NULL, the other
columns being whatever they are. Movie 8 of the sample store has a row in the
movie table and none in the name table: its loader returns the scan error and
a record in which only `Id` was stored. Movie 7, with a name, loads. -/
theorem loader_null_name :
    (∀ (db : Queryer) (id : Atom) (h : List Call) (cols : List (Option Dest)),
      db.QueryRow h movieQuery id = Sql.row cols → cols[1]? = some none →
      (AtomToMovie db id h).err ≠ none) ∧
    (∀ (db : Queryer) (id : Atom) (h : List Call) (cols : List (Option Dest)),
      db.QueryRow h tvshowQuery id = Sql.row cols → cols[1]? = some none →
      (AtomToTvshow db id h).err ≠ none) ∧
    (∀ (db : Queryer) (id : Atom) (h : List Call) (cols : List (Option Dest)),
      db.QueryRow h episodeQuery id = Sql.row cols → cols[2]? = some none →
      (AtomToEpisode db id h).err ≠ none) ∧
    (∀ (db : Queryer) (id : Atom) (h : List Call) (cols : List (Option Dest)),
      db.QueryRow h actorQuery id = Sql.row cols → cols[1]? = some none →
      (AtomToActor db id h).err ≠ none) ∧
    (AtomToMovie Sample.unnamedMovie 8 []).ptr = some ⟨8, "", 0, "", false, false⟩ ∧
    (AtomToMovie Sample.unnamedMovie 8 []).err =
      some ⟨"sql: Scan error on column index 1: converting NULL to string is unsupported"⟩ ∧
    fromAtomGuess Sample.unnamedMovie 8 [] =
      .ret ⟨none, some ⟨"Could not find any entity corresponding to atom 8"⟩,
        [⟨movieQuery, 8⟩, ⟨tvshowQuery, 8⟩, ⟨episodeQuery, 8⟩, ⟨actorQuery, 8⟩]⟩ ∧
    (AtomToMovie Sample.unnamedMovie 7 []).ptr = some ⟨7, "Alien", 1979, "", false, false⟩ ∧
    (AtomToMovie Sample.unnamedMovie 7 []).err = none := by
  refine ⟨?_, ?_, ?_, ?_, by decide, by decide, by decide, by decide, by decide⟩
  · intro db id h cols hq hk
    simp only [AtomToMovie, Movie.Scan, Movie.scanFields, hq]
    exact row_null cols 1 _ hk (by decide)
  · intro db id h cols hq hk
    simp only [AtomToTvshow, Tvshow.Scan, Tvshow.scanFields, hq]
    exact row_null cols 1 _ hk (by decide)
  · intro db id h cols hq hk
    simp only [AtomToEpisode, Episode.Scan, Episode.scanFields, hq]
    exact row_null cols 2 _ hk (by decide)
  · intro db id h cols hq hk
    simp only [AtomToActor, Actor.Scan, Actor.scanFields, hq]
    exact row_null cols 1 _ hk (by decide)

/-! ## The run of the undirected lookup and its agreement with the directed one -/

/-- Claim C14. The queries `fromAtomGuess` adds to the history are those of
the loaders movie, tvshow, episode, actor in this order, up to and including
the first loader that returns no error, and all four when none does; these
four calls are pairwise different, so no loader runs twice and none runs after
a success. -/
theorem fromAtomGuess_trace (db : Queryer) (id : Atom) (h : List Call) :
    ∃ r, fromAtomGuess db id h = .ret r ∧
      r.hist = h ++ List.take (Spec.attempts (Spec.outcomes db id h))
        [⟨movieQuery, id⟩, ⟨tvshowQuery, id⟩, ⟨episodeQuery, id⟩, ⟨actorQuery, id⟩] ∧
      1 ≤ Spec.attempts (Spec.outcomes db id h) ∧
      Spec.attempts (Spec.outcomes db id h) ≤ 4 ∧
      (r.err ≠ none → Spec.attempts (Spec.outcomes db id h) = 4) ∧
      ([⟨movieQuery, id⟩, ⟨tvshowQuery, id⟩, ⟨episodeQuery, id⟩, ⟨actorQuery, id⟩] :
        List Call).Nodup := by
  have hnd : ([⟨movieQuery, id⟩, ⟨tvshowQuery, id⟩, ⟨episodeQuery, id⟩, ⟨actorQuery, id⟩] :
      List Call).Nodup := by
    apply List.Nodup.of_map Call.query
    show [movieQuery, tvshowQuery, episodeQuery, actorQuery].Nodup
    decide
  simp only [fromAtomGuess, Spec.outcomes, AtomToMovie, AtomToTvshow, AtomToEpisode,
    AtomToActor]
  generalize Movie.Scan (some Movie.new) (db.QueryRow h movieQuery id) = m
  generalize Tvshow.Scan (some Tvshow.new)
    (db.QueryRow (h ++ [⟨movieQuery, id⟩]) tvshowQuery id) = t
  generalize Episode.Scan (some Episode.new)
    (db.QueryRow (h ++ [⟨movieQuery, id⟩] ++ [⟨tvshowQuery, id⟩]) episodeQuery id) = e
  generalize Actor.Scan (some Actor.new)
    (db.QueryRow (h ++ [⟨movieQuery, id⟩] ++ [⟨tvshowQuery, id⟩] ++ [⟨episodeQuery, id⟩])
      actorQuery id) = a
  rcases m with ⟨mp, _ | me⟩ <;> rcases t with ⟨tp, _ | te⟩ <;>
    rcases e with ⟨ep, _ | ee⟩ <;> rcases a with ⟨ap, _ | ae⟩ <;>
    simp [Spec.attempts, hnd]

/-- Claim C15. Under each of the four categories `FromAtom` returns a non-nil
entity that holds the non-nil pointer of the matching loader and whose
`Type()` is the category, with that loader's error, nil or not; whereas
`fromAtomGuess` returns a nil entity whenever it returns an error. -/
theorem FromAtom_entity_non_nil (db : Queryer) (id : Atom) (h : List Call)
    (c : EntityKind) (hc : c ∈ Spec.kinds) :
    (∃ e err hh, Spec.load db c id h = some (e, err) ∧
      FromAtom db c id h = .ret ⟨some e, err, hh⟩ ∧ e.Type = c ∧ e.nilPtr = false) ∧
    (∃ r, fromAtomGuess db id h = .ret r ∧ (r.err = none ∨ r.entity = none)) := by
  constructor
  · simp only [Spec.kinds, List.mem_cons, List.mem_singleton, List.not_mem_nil,
      or_false] at hc
    rcases hc with rfl | rfl | rfl | rfl
    · exact ⟨_, _, _, rfl, rfl, rfl, rfl⟩
    · exact ⟨_, _, _, rfl, rfl, rfl, rfl⟩
    · exact ⟨_, _, _, rfl, rfl, rfl, rfl⟩
    · exact ⟨_, _, _, rfl, rfl, rfl, rfl⟩
  · obtain ⟨r, hr, _, herr, _, _⟩ := fromAtomGuess_cases db id h
    refine ⟨r, hr, ?_⟩
    by_cases hn : r.entity = none
    · exact Or.inr hn
    · exact Or.inl (herr.2 hn)

set_option maxRecDepth 100000 in
/-- Witness of claim C15: identifier 7 is no actor, and the directed lookup
under `EntityActor` returns the loader's zero-valued record with the error. -/
theorem FromAtom_entity_non_nil_witness :
    FromAtom Sample.movieOnly EntityActor 7 [] =
      .ret ⟨some (.actor (some ⟨0, "", ""⟩)), some ⟨"sql: no rows in result set"⟩,
        [⟨actorQuery, 7⟩]⟩ ∧
    (∃ e err hh, Spec.load Sample.movieOnly EntityActor 7 [] = some (e, err) ∧
      FromAtom Sample.movieOnly EntityActor 7 [] = .ret ⟨some e, err, hh⟩ ∧
      e.Type = EntityActor ∧ e.nilPtr = false) ∧
    (∃ r, fromAtomGuess Sample.movieOnly 7 [] = .ret r ∧ (r.err = none ∨ r.entity = none)) :=
  ⟨by decide,
   (FromAtom_entity_non_nil Sample.movieOnly 7 [] EntityActor (by decide)).1,
   (FromAtom_entity_non_nil Sample.movieOnly 7 [] EntityActor (by decide)).2⟩

theorem load_movie (db : Queryer) (id : Atom) (h : List Call) :
    Spec.load db EntityMovie id h =
      some (.movie (AtomToMovie db id h).ptr, (AtomToMovie db id h).err) := rfl

theorem load_tvshow (db : Queryer) (id : Atom) (h : List Call) :
    Spec.load db EntityTvshow id h =
      some (.tvshow (AtomToTvshow db id h).ptr, (AtomToTvshow db id h).err) := rfl

theorem load_episode (db : Queryer) (id : Atom) (h : List Call) :
    Spec.load db EntityEpisode id h =
      some (.episode (AtomToEpisode db id h).ptr, (AtomToEpisode db id h).err) := rfl

theorem load_actor (db : Queryer) (id : Atom) (h : List Call) :
    Spec.load db EntityActor id h =
      some (.actor (AtomToActor db id h).ptr, (AtomToActor db id h).err) := rfl

theorem firstSuccess_cons_none (e : Entity) (rest : List (Entity × Option Error)) :
    Spec.firstSuccess ((e, none) :: rest) = some e := rfl

theorem firstSuccess_cons_some (e : Entity) (err : Error)
    (rest : List (Entity × Option Error)) :
    Spec.firstSuccess ((e, some err) :: rest) = Spec.firstSuccess rest := rfl

/-- The entity `Spec.firstSuccess` picks is the outcome of one loader, which
returned no error, and every loader before it returned an error. -/
theorem firstSuccess_hit (db : Queryer) (id : Atom) (h : List Call) (e : Entity)
    (hfs : Spec.firstSuccess (Spec.outcomes db id h) = some e) :
    ∃ c hc, c ∈ Spec.kinds ∧ Spec.load db c id hc = some (e, none) ∧
      ∀ c2 ∈ Spec.kinds, c2 < c → ∃ h2 e2 err2, Spec.load db c2 id h2 = some (e2, some err2) := by
  simp only [Spec.outcomes] at hfs
  have mem : ∀ c2 : EntityKind, c2 ∈ Spec.kinds →
      c2 = EntityMovie ∨ c2 = EntityTvshow ∨ c2 = EntityEpisode ∨ c2 = EntityActor := by
    intro c2 h2
    simpa [Spec.kinds] using h2
  cases hm : (AtomToMovie db id h).err with
  | none =>
    rw [hm, firstSuccess_cons_none] at hfs
    refine ⟨EntityMovie, h, by decide, ?_, ?_⟩
    · have he := Option.some.inj hfs
      rw [load_movie, hm, he]
    · intro c2 hc2 hlt
      rcases mem c2 hc2 with rfl | rfl | rfl | rfl <;> exact absurd hlt (by decide)
  | some em =>
    rw [hm, firstSuccess_cons_some] at hfs
    have lm : Spec.load db EntityMovie id h =
        some (.movie (AtomToMovie db id h).ptr, some em) := by
      rw [load_movie, hm]
    cases ht : (AtomToTvshow db id (h ++ [⟨movieQuery, id⟩])).err with
    | none =>
      rw [ht, firstSuccess_cons_none] at hfs
      refine ⟨EntityTvshow, h ++ [⟨movieQuery, id⟩], by decide, ?_, ?_⟩
      · have he := Option.some.inj hfs
        rw [load_tvshow, ht, he]
      · intro c2 hc2 hlt
        rcases mem c2 hc2 with rfl | rfl | rfl | rfl
        · exact ⟨_, _, _, lm⟩
        all_goals exact absurd hlt (by decide)
    | some et =>
      rw [ht, firstSuccess_cons_some] at hfs
      have lt : Spec.load db EntityTvshow id (h ++ [⟨movieQuery, id⟩]) =
          some (.tvshow (AtomToTvshow db id (h ++ [⟨movieQuery, id⟩])).ptr, some et) := by
        rw [load_tvshow, ht]
      cases hep : (AtomToEpisode db id
          (h ++ [⟨movieQuery, id⟩] ++ [⟨tvshowQuery, id⟩])).err with
      | none =>
        rw [hep, firstSuccess_cons_none] at hfs
        refine ⟨EntityEpisode, h ++ [⟨movieQuery, id⟩] ++ [⟨tvshowQuery, id⟩], by decide, ?_, ?_⟩
        · have he := Option.some.inj hfs
          rw [load_episode, hep, he]
        · intro c2 hc2 hlt
          rcases mem c2 hc2 with rfl | rfl | rfl | rfl
          · exact ⟨_, _, _, lm⟩
          · exact ⟨_, _, _, lt⟩
          all_goals exact absurd hlt (by decide)
      | some ee =>
        rw [hep, firstSuccess_cons_some] at hfs
        have le : Spec.load db EntityEpisode id
            (h ++ [⟨movieQuery, id⟩] ++ [⟨tvshowQuery, id⟩]) =
            some (.episode (AtomToEpisode db id
              (h ++ [⟨movieQuery, id⟩] ++ [⟨tvshowQuery, id⟩])).ptr, some ee) := by
          rw [load_episode, hep]
        cases ha : (AtomToActor db id
            (h ++ [⟨movieQuery, id⟩] ++ [⟨tvshowQuery, id⟩] ++ [⟨episodeQuery, id⟩])).err with
        | none =>
          rw [ha, firstSuccess_cons_none] at hfs
          refine ⟨EntityActor,
            h ++ [⟨movieQuery, id⟩] ++ [⟨tvshowQuery, id⟩] ++ [⟨episodeQuery, id⟩],
            by decide, ?_, ?_⟩
          · have he := Option.some.inj hfs
            rw [load_actor, ha, he]
          · intro c2 hc2 hlt
            rcases mem c2 hc2 with rfl | rfl | rfl | rfl
            · exact ⟨_, _, _, lm⟩
            · exact ⟨_, _, _, lt⟩
            · exact ⟨_, _, _, le⟩
            · exact absurd hlt (by decide)
        | some ea =>
          rw [ha, firstSuccess_cons_some] at hfs
          exact Option.noConfusion hfs

/-- Claim C16. Let the loaders of the executor be deterministic on the
identifier, and let `fromAtomGuess` return the entity `e`. Then its error is
nil, `e.Type()` is one of the four categories and not `EntityNone`, `FromAtom`
under `e.Type()` returns the same entity `e` with a nil error, and `FromAtom`
under every category of higher priority than `e.Type()` (a category before it
in the order movie, tvshow, episode, actor) returns an error. -/
theorem guess_agrees_with_directed (db : Queryer) (id : Atom)
    (hdet : Spec.deterministic db id) (h h2 : List Call) (r : Reply) (e : Entity)
    (hg : fromAtomGuess db id h = .ret r) (he : r.entity = some e) :
    r.err = none ∧ e.Type ∈ Spec.kinds ∧ e.Type ≠ EntityNone ∧
    (∃ hh, FromAtom db e.Type id h2 = .ret ⟨some e, none, hh⟩) ∧
    ∀ c ∈ Spec.kinds, c < e.Type → ∃ r2, FromAtom db c id h2 = .ret r2 ∧ r2.err ≠ none := by
  obtain ⟨r1, hr1, hent, herr, _, _⟩ := fromAtomGuess_cases db id h
  have hrr : r1 = r := Outcome.ret.inj (hr1.symm.trans hg)
  subst hrr
  have hfs : Spec.firstSuccess (Spec.outcomes db id h) = some e := hent.symm.trans he
  obtain ⟨c, hc, hck, hl, hprev⟩ := firstSuccess_hit db id h e hfs
  have hl2 : Spec.load db c id h2 = some (e, none) := (hdet c h2 hc).trans hl
  obtain ⟨hty, hh, hf⟩ := FromAtom_of_load db c id h2 e none hl2
  have hnone : c ≠ EntityNone := by
    intro h0
    rw [h0] at hck
    exact absurd hck (by decide)
  refine ⟨herr.2 (by rw [he]; exact fun x => Option.noConfusion x), ?_, ?_, ?_, ?_⟩
  · rw [hty]; exact hck
  · rw [hty]; exact hnone
  · rw [hty]; exact ⟨hh, hf⟩
  · intro c2 hc2 hlt
    rw [hty] at hlt
    obtain ⟨h3, e2, err2, hl3⟩ := hprev c2 hc2 hlt
    have hl4 : Spec.load db c2 id h2 = some (e2, some err2) := (hdet c2 h2 h3).trans hl3
    obtain ⟨_, hh2, hf2⟩ := FromAtom_of_load db c2 id h2 e2 (some err2) hl4
    exact ⟨_, hf2, fun x => Option.noConfusion x⟩

set_option maxRecDepth 100000 in
/-- Witness of claim C16: identifier 9 is an actor and nothing else; the
undirected lookup returns the actor, the directed lookup under `EntityActor`
returns the same record, and the three categories before it fail. -/
theorem guess_agrees_with_directed_witness :
    Spec.deterministic Sample.actorOnly 9 ∧
    fromAtomGuess Sample.actorOnly 9 [] =
      .ret ⟨some (.actor (some ⟨9, "Sigourney Weaver", ""⟩)), none,
        [⟨movieQuery, 9⟩, ⟨tvshowQuery, 9⟩, ⟨episodeQuery, 9⟩, ⟨actorQuery, 9⟩]⟩ ∧
    (∃ hh, FromAtom Sample.actorOnly EntityActor 9 [] =
      .ret ⟨some (.actor (some ⟨9, "Sigourney Weaver", ""⟩)), none, hh⟩) ∧
    ∀ c ∈ Spec.kinds, c < EntityActor →
      ∃ r2, FromAtom Sample.actorOnly c 9 [] = .ret r2 ∧ r2.err ≠ none :=
  have hdet : Spec.deterministic Sample.actorOnly 9 := fun _ _ _ => rfl
  have hg : fromAtomGuess Sample.actorOnly 9 [] =
      .ret ⟨some (.actor (some ⟨9, "Sigourney Weaver", ""⟩)), none,
        [⟨movieQuery, 9⟩, ⟨tvshowQuery, 9⟩, ⟨episodeQuery, 9⟩, ⟨actorQuery, 9⟩]⟩ := by
    decide
  have hw := guess_agrees_with_directed Sample.actorOnly 9 hdet [] [] _
    (.actor (some ⟨9, "Sigourney Weaver", ""⟩)) hg rfl
  ⟨hdet, hg, hw.2.2.2.1, hw.2.2.2.2⟩

end imdb
